import Mathlib

/-!
Shallow embedding of the CSV-to-JSON restructuring transform of
`src/import_csv_to_json/src/App.js` (the `question_types` table,
`questionnaire_exists`, `questions_responses` and `json_restructure`),
together with theorems settling the specification claims about it.

JavaScript string primitives are modelled over `List Char`:
`str.split(sep)` for a one-character separator is `jsSplit`, and
`str.trim()` is `jsTrim` (drop whitespace from both ends).  A JavaScript
exception is modelled with `Except String`: where the original code would
throw a `TypeError` (accessing `.trim()` of `undefined`), the embedded
function returns `Except.error jsUndefinedTrimError`.
-/

deriving instance DecidableEq for Except

namespace App

/-- Model of a parsed CSV row: a record with the seven fixed column names,
all string valued (Papaparse with `header: true` produces such records). -/
structure Row where
  questionnaireName : String
  questionnaireAbbreviation : String
  questionGroupInstruction : String
  question : String
  questionAbbreviation : String
  responseType : String
  responseOptions : String
deriving DecidableEq

/-- One parsed response choice, `{ text, value }`, as pushed on line 64-69. -/
structure ResponseOption where
  text : String
  value : String
deriving DecidableEq

/-- The value of a JavaScript property read `question_types[key]`.  The
`question_types` object is a plain literal, so the read returns the own
property for the four recognized labels, the value inherited from
`Object.prototype` when the key names one of its properties, and
`undefined` otherwise. -/
inductive JSTypeValue where
  | str (code : String)
  | inherited (key : String)
  | undef
deriving DecidableEq

/-- The property names of `Object.prototype` in a web browser, the keys
for which a lookup on a plain object literal hits the prototype chain
instead of missing. -/
def object_prototype_keys : List String :=
  ["constructor", "hasOwnProperty", "isPrototypeOf", "propertyIsEnumerable",
   "toLocaleString", "toString", "valueOf", "__defineGetter__",
   "__defineSetter__", "__lookupGetter__", "__lookupSetter__", "__proto__"]

/-- A question object as built by `questions_responses`: `rows` is `some _`
in the first branch (line 36-40) and `none` in the second (line 41-45);
`type` is whatever the `question_types` property read produced, including
`JSTypeValue.undef` on a full lookup miss. -/
structure Question where
  title : String
  type : JSTypeValue
  rows : Option (List ResponseOption)
  variable_name : String
deriving DecidableEq

/-- A questionnaire object as pushed on lines 80-90. -/
structure Questionnaire where
  activity_type : String
  mode : String
  frequency : String
  title : String
  questions : List Question
deriving DecidableEq

/-- Splitting a list of characters at every occurrence of `c`, mirroring
JavaScript `String.prototype.split` with a one-character separator: the
result is always non-empty, and the empty input yields `[[]]`. -/
def splitOnChar (c : Char) : List Char → List (List Char)
  | [] => [[]]
  | a :: rest =>
    match splitOnChar c rest with
    | [] => [[a]]
    | s :: ss => if a = c then [] :: s :: ss else (a :: s) :: ss

/-- JavaScript `s.split(c)` for a one-character separator `c`. -/
def jsSplit (c : Char) (s : String) : List String :=
  (splitOnChar c s.data).map fun l => ⟨l⟩

/-- JavaScript `s.trim()`: remove leading and trailing whitespace. -/
def jsTrim (s : String) : String :=
  ⟨((s.data.dropWhile Char.isWhitespace).reverse.dropWhile Char.isWhitespace).reverse⟩

/-- The exception raised by the original code when a split produced fewer
than two parts and `response_value[1].trim()` dereferences `undefined`
(line 66).  The message is the JavaScript runtime TypeError; it mentions
neither the offending segment nor the row. -/
def jsUndefinedTrimError : String :=
  "TypeError: Cannot read properties of undefined (reading trim)"

/-- The `question_types` lookup (lines 19-24 and the reads on lines 38
and 43): the four own keys map frontend labels to backend codes; any
other key falls through to `Object.prototype`, returning the inherited
property when the key names one and `undefined` only otherwise. -/
def question_types (s : String) : JSTypeValue :=
  if s = "Single Choice" then JSTypeValue.str "single_sel"
  else if s = "Image" then JSTypeValue.str "image_sel"
  else if s = "Multiple Choice" then JSTypeValue.str "multi_sel"
  else if s = "Text Entry" then JSTypeValue.str "text"
  else if s ∈ object_prototype_keys then JSTypeValue.inherited s
  else JSTypeValue.undef

/-- The `find` predicate `questionnaire_exists` (lines 28-30): the bound
`this` is the questionnaire title searched for. -/
def questionnaire_exists (thisTitle : String) (questionnaire_array : Questionnaire) : Bool :=
  thisTitle == questionnaire_array.title

/-- The body of the inner loop at lines 62-70 for one segment:
`responses[j].split("=")` followed by building
`{ text: response_value[1].trim(), value: response_value[0].trim() }`.
When the split yields a single part, `response_value[1]` is `undefined`
and the `.trim()` call throws. -/
def parseSegment (seg : String) : Except String ResponseOption :=
  match jsSplit '=' seg with
  | v :: t :: _ => Except.ok { text := jsTrim t, value := jsTrim v }
  | _ => Except.error jsUndefinedTrimError

/-- The inner loop of lines 62-70 over all segments, accumulating
`response_json`; the first throwing segment aborts the whole run. -/
def parseSegments : List String → Except String (List ResponseOption)
  | [] => Except.ok []
  | seg :: rest =>
    match parseSegment seg with
    | Except.error e => Except.error e
    | Except.ok o =>
      match parseSegments rest with
      | Except.error e => Except.error e
      | Except.ok os => Except.ok (o :: os)

/-- Lines 57-60: split `Response Options` on newlines; if that produced
fewer than 2 elements, re-split the original string on commas. -/
def splitResponses (opts : String) : List String :=
  let responses := jsSplit '\n' opts
  if responses.length < 2 then jsSplit ',' opts else responses

/-- The `questions_responses` builder (lines 34-47).  `test` is
`responses.length`, a number whose JavaScript truthiness is `≠ 0`. -/
def questions_responses (test : Nat) (question_title : String)
    (qt : String → JSTypeValue) (row : Row)
    (response_json : List ResponseOption) : Question :=
  if test ≠ 0 then
    { title := question_title
      type := qt row.responseType
      rows := some response_json
      variable_name := row.questionAbbreviation }
  else
    { title := question_title
      type := qt row.responseType
      rows := none
      variable_name := row.questionAbbreviation }

/-- Line 54: the computed questionnaire title. -/
def questionnaire_title (row : Row) : String :=
  if row.questionnaireName = row.questionnaireAbbreviation then
    row.questionnaireName
  else
    row.questionnaireAbbreviation ++ " (" ++ row.questionnaireName ++ ")"

/-- Lines 72-75: the question title, prefixed by the trimmed group
instruction when that is non-empty. -/
def question_title_of (row : Row) : String :=
  let t := jsTrim row.question
  if 0 < (jsTrim row.questionGroupInstruction).length then
    jsTrim row.questionGroupInstruction ++ ": " ++ t
  else t

/-- The per-row work of lines 55-75 and the `questions_responses` call of
lines 78 and 87: parse the response options unless the row is a
"Text Entry" row, then build the question object.  For a "Text Entry" row
`responses` stays `[]` (length 0, falsy) and `response_json` is never
read, so the no-`rows` branch is taken. -/
def row_question (row : Row) : Except String Question :=
  if row.responseType ≠ "Text Entry" then
    match parseSegments (splitResponses row.responseOptions) with
    | Except.error e => Except.error e
    | Except.ok response_json =>
      Except.ok (questions_responses (splitResponses row.responseOptions).length
        (question_title_of row) question_types row response_json)
  else
    Except.ok (questions_responses 0 (question_title_of row) question_types row [])

/-- Lines 76-91: `dbs_json.find(questionnaire_exists, questionnaire_title)`
followed by pushing the question onto the found questionnaire, or pushing
a fresh questionnaire object onto the end of the list. -/
def insertQuestion (title : String) (q : Question) : List Questionnaire → List Questionnaire
  | [] =>
    [{ activity_type := "survey"
       mode := "basic"
       frequency := "1"
       title := title
       questions := [q] }]
  | qn :: rest =>
    if questionnaire_exists title qn then
      { qn with questions := qn.questions ++ [q] } :: rest
    else
      qn :: insertQuestion title q rest

/-- The loop of `json_restructure` (lines 53-93), folding the rows into
the accumulated `dbs_json`; a thrown exception aborts the whole call. -/
def json_restructure_go : List Row → List Questionnaire → Except String (List Questionnaire)
  | [], dbs_json => Except.ok dbs_json
  | row :: rest, dbs_json =>
    match row_question row with
    | Except.error e => Except.error e
    | Except.ok q => json_restructure_go rest (insertQuestion (questionnaire_title row) q dbs_json)

/-- The `json_restructure` entry point (lines 51-95). -/
def json_restructure (file_json_array : List Row) : Except String (List Questionnaire) :=
  json_restructure_go file_json_array []

/-- Specification-side helper: add a title to an accumulator unless it is
already there, keeping first-appearance order. -/
def addTitle (ts : List String) (t : String) : List String :=
  if t ∈ ts then ts else ts ++ [t]

/-- Specification-side helper: the distinct members of a list in order of
first appearance. -/
def firstSeenTitles (l : List String) : List String :=
  l.foldl addTitle []

/-- Two rows that agree on every column, except that the Response Options
column may differ when the row is a "Text Entry" row. -/
def agreeExceptTextOptions (a b : Row) : Prop :=
  a.questionnaireName = b.questionnaireName ∧
  a.questionnaireAbbreviation = b.questionnaireAbbreviation ∧
  a.questionGroupInstruction = b.questionGroupInstruction ∧
  a.question = b.question ∧
  a.questionAbbreviation = b.questionAbbreviation ∧
  a.responseType = b.responseType ∧
  (a.responseType ≠ "Text Entry" → a.responseOptions = b.responseOptions)

/-! ### Basic lemmas about the embedded operations -/

lemma splitOnChar_ne_nil (c : Char) : ∀ l : List Char, splitOnChar c l ≠ [] := by
  intro l
  induction l with
  | nil => simp [splitOnChar]
  | cons a rest ih =>
    simp only [splitOnChar]
    split
    · simp
    · split <;> simp

lemma jsSplit_ne_nil (c : Char) (s : String) : jsSplit c s ≠ [] := by
  simp only [jsSplit, ne_eq, List.map_eq_nil_iff]
  exact splitOnChar_ne_nil c s.data

lemma splitResponses_ne_nil (opts : String) : splitResponses opts ≠ [] := by
  show (if (jsSplit '\n' opts).length < 2 then jsSplit ',' opts else jsSplit '\n' opts) ≠ []
  split
  · exact jsSplit_ne_nil ',' opts
  · exact jsSplit_ne_nil '\n' opts

lemma parseSegments_length :
    ∀ (segs : List String) (os : List ResponseOption),
      parseSegments segs = Except.ok os → os.length = segs.length := by
  intro segs
  induction segs with
  | nil =>
    intro os h
    injection h with h2
    rw [← h2]
    rfl
  | cons s rest ih =>
    intro os h
    simp only [parseSegments] at h
    cases hs : parseSegment s with
    | error e => rw [hs] at h; exact absurd h (fun hc => Except.noConfusion hc)
    | ok o =>
      rw [hs] at h
      cases hr : parseSegments rest with
      | error e =>
        rw [hr] at h
        exact absurd h (fun hc => Except.noConfusion hc)
      | ok os2 =>
        rw [hr] at h
        injection h with h2
        rw [← h2, List.length_cons, List.length_cons, ih os2 hr]

lemma questions_responses_congr (a b : Row)
    (hT : a.responseType = b.responseType)
    (hA : a.questionAbbreviation = b.questionAbbreviation)
    (n : Nat) (t : String) (qt : String → JSTypeValue)
    (os : List ResponseOption) :
    questions_responses n t qt a os = questions_responses n t qt b os := by
  unfold questions_responses
  rw [hT, hA]

lemma questions_responses_type (n : Nat) (t : String)
    (qt : String → JSTypeValue) (r : Row) (os : List ResponseOption) :
    (questions_responses n t qt r os).type = qt r.responseType := by
  unfold questions_responses
  split <;> rfl

lemma question_title_of_congr (a b : Row)
    (h3 : a.questionGroupInstruction = b.questionGroupInstruction)
    (h4 : a.question = b.question) :
    question_title_of a = question_title_of b := by
  unfold question_title_of
  rw [h3, h4]

lemma questionnaire_title_congr (a b : Row)
    (h1 : a.questionnaireName = b.questionnaireName)
    (h2 : a.questionnaireAbbreviation = b.questionnaireAbbreviation) :
    questionnaire_title a = questionnaire_title b := by
  unfold questionnaire_title
  rw [h1, h2]

lemma row_question_congr (a b : Row) (h : agreeExceptTextOptions a b) :
    row_question a = row_question b := by
  obtain ⟨h1, h2, h3, h4, h5, h6, h7⟩ := h
  have htitle : question_title_of a = question_title_of b :=
    question_title_of_congr a b h3 h4
  by_cases ht : a.responseType = "Text Entry"
  · have hta : ¬ a.responseType ≠ "Text Entry" := fun hn => hn ht
    have htb : ¬ b.responseType ≠ "Text Entry" := fun hn => hn (h6 ▸ ht)
    unfold row_question
    rw [if_neg hta, if_neg htb, htitle, questions_responses_congr a b h6 h5]
  · have hta : a.responseType ≠ "Text Entry" := ht
    have htb : b.responseType ≠ "Text Entry" := h6 ▸ ht
    have ho : a.responseOptions = b.responseOptions := h7 ht
    unfold row_question
    rw [if_pos hta, if_pos htb, ho, htitle]
    simp only [questions_responses_congr a b h6 h5]

lemma insertQuestion_map_title (t : String) (q : Question) :
    ∀ dbs : List Questionnaire,
      (insertQuestion t q dbs).map Questionnaire.title =
        addTitle (dbs.map Questionnaire.title) t := by
  intro dbs
  induction dbs with
  | nil => simp [insertQuestion, addTitle]
  | cons qn rest ih =>
    by_cases hq : t = qn.title
    · subst hq
      simp [insertQuestion, questionnaire_exists, addTitle]
    · by_cases hm : t ∈ rest.map Questionnaire.title
      · simp [insertQuestion, questionnaire_exists, addTitle, hq, hm, ih]
      · simp [insertQuestion, questionnaire_exists, addTitle, hq, hm, ih]

lemma json_restructure_go_map_title :
    ∀ (rows : List Row) (dbs out : List Questionnaire),
      json_restructure_go rows dbs = Except.ok out →
      out.map Questionnaire.title =
        (rows.map questionnaire_title).foldl addTitle (dbs.map Questionnaire.title) := by
  intro rows
  induction rows with
  | nil =>
    intro dbs out h
    injection h with h2
    rw [← h2, List.map_nil, List.foldl_nil]
  | cons row rest ih =>
    intro dbs out h
    simp only [json_restructure_go] at h
    cases hrq : row_question row with
    | error e => rw [hrq] at h; exact absurd h (fun hc => Except.noConfusion hc)
    | ok q =>
      rw [hrq] at h
      rw [List.map_cons, List.foldl_cons, ← insertQuestion_map_title (questionnaire_title row) q dbs]
      exact ih _ _ h

lemma json_restructure_go_row_ok :
    ∀ (rows : List Row) (dbs out : List Questionnaire),
      json_restructure_go rows dbs = Except.ok out →
      ∀ r ∈ rows, ∃ q, row_question r = Except.ok q := by
  intro rows
  induction rows with
  | nil => intro dbs out _ r hr; cases hr
  | cons row rest ih =>
    intro dbs out h r hr
    simp only [json_restructure_go] at h
    cases hrq : row_question row with
    | error e => rw [hrq] at h; exact absurd h (fun hc => Except.noConfusion hc)
    | ok q =>
      rw [hrq] at h
      rcases List.mem_cons.mp hr with rfl | hr2
      · exact ⟨q, hrq⟩
      · exact ih _ _ h r hr2

lemma foldl_addTitle_nodup :
    ∀ (l init : List String), init.Nodup → (List.foldl addTitle init l).Nodup := by
  intro l
  induction l with
  | nil => intro init h; exact h
  | cons t ts ih =>
    intro init h
    rw [List.foldl_cons]
    apply ih
    unfold addTitle
    by_cases hm : t ∈ init
    · rw [if_pos hm]; exact h
    · rw [if_neg hm]
      simp [List.nodup_append, h, hm]

lemma foldl_addTitle_toFinset :
    ∀ (l init : List String),
      (List.foldl addTitle init l).toFinset = init.toFinset ∪ l.toFinset := by
  intro l
  induction l with
  | nil => intro init; simp
  | cons t ts ih =>
    intro init
    rw [List.foldl_cons, ih]
    unfold addTitle
    by_cases hm : t ∈ init
    · rw [if_pos hm]
      ext x
      simp only [Finset.mem_union, List.mem_toFinset, List.mem_cons]
      constructor
      · rintro (h | h)
        · exact Or.inl h
        · exact Or.inr (Or.inr h)
      · rintro (h | rfl | h)
        · exact Or.inl h
        · exact Or.inl hm
        · exact Or.inr h
    · rw [if_neg hm]
      ext x
      simp only [Finset.mem_union, List.mem_toFinset, List.mem_append,
        List.mem_cons, List.mem_singleton]
      tauto

/-! ### Concrete inputs used by witnesses and counterexamples -/

/-- A non-text row whose Response Options cell is the empty string. -/
def c1row : Row := ⟨"A", "A", "", "Q", "q", "Single Choice", ""⟩

/-- A non-text row with a Response Options segment lacking any "=". -/
def c2row : Row := ⟨"A", "A", "", "Q", "q", "Single Choice", "1-Yes"⟩

/-- A text-entry row with a group instruction and a response-options cell. -/
def c5row : Row := ⟨"A", "A", "Intro", "How are you?", "q0", "Text Entry", "ignored"⟩

/-- Scenario B row: name and abbreviation differ. -/
def c6row : Row := ⟨"Patient Health Questionnaire", "PHQ9", "", "Q", "q", "Text Entry", ""⟩

/-- A row with an unrecognized Response Type. -/
def c8row : Row := ⟨"A", "A", "", "Q", "q", "Slider", "1=Yes"⟩

/-- The question the Restructurer builds for `c8row`. -/
def c8question : Question := ⟨"Q", JSTypeValue.undef, some [⟨"Yes", "1"⟩], "q"⟩

/-- Scenario A first row: a single-choice row with two options. -/
def c9row : Row := ⟨"PHQ9", "PHQ9", "", "Q1", "q1", "Single Choice", "0=Not at all\n1=Several days"⟩

/-- The question the Restructurer builds for `c9row`. -/
def c9question : Question :=
  ⟨"Q1", JSTypeValue.str "single_sel",
    some [⟨"Not at all", "0"⟩, ⟨"Several days", "1"⟩], "q1"⟩

/-- The full output for the one-row input `[c9row]`. -/
def c9out : List Questionnaire := [⟨"survey", "basic", "1", "PHQ9", [c9question]⟩]

/-- Three text-entry rows producing two distinct computed titles, the first
title recurring in the third row. -/
def c4rows : List Row :=
  [⟨"PHQ9", "PHQ9", "", "Q1", "q1", "Text Entry", ""⟩,
   ⟨"Patient Health Questionnaire", "PHQ9", "", "Q2", "q2", "Text Entry", ""⟩,
   ⟨"PHQ9", "PHQ9", "", "Q3", "q3", "Text Entry", ""⟩]

/-- The output for `c4rows`: two questionnaires, the first holding the
questions of rows 1 and 3. -/
def c4out : List Questionnaire :=
  [⟨"survey", "basic", "1", "PHQ9",
    [⟨"Q1", JSTypeValue.str "text", none, "q1"⟩,
     ⟨"Q3", JSTypeValue.str "text", none, "q3"⟩]⟩,
   ⟨"survey", "basic", "1", "PHQ9 (Patient Health Questionnaire)",
    [⟨"Q2", JSTypeValue.str "text", none, "q2"⟩]⟩]

/-- A one-row input whose text-entry row carries some response options. -/
def c10xs : List Row := [⟨"A", "A", "", "Q", "q", "Text Entry", "0=secret option"⟩]

/-- The same input with the text-entry row's response options blanked. -/
def c10ys : List Row := [⟨"A", "A", "", "Q", "q", "Text Entry", ""⟩]

lemma json_restructure_go_congr :
    ∀ (xs ys : List Row), List.Forall₂ agreeExceptTextOptions xs ys →
      ∀ acc, json_restructure_go xs acc = json_restructure_go ys acc := by
  intro xs ys h
  induction h with
  | nil => intro acc; rfl
  | @cons a b l1 l2 h1 h2 ih =>
    intro acc
    have hr := row_question_congr a b h1
    have ht := questionnaire_title_congr a b h1.1 h1.2.1
    simp only [json_restructure_go]
    rw [hr, ht]
    cases hrq : row_question b with
    | error e => rfl
    | ok q => exact ih _

/-! ### Claim theorems -/

/-- Claim C1 counterexample: on a non-text row with an empty Response
Options cell the Restructurer does raise: the empty cell splits into one
empty segment, that segment has no "=", and the option loop throws.  The
claim's "zero parsed options and does not raise an error" is false here. -/
theorem claim_C1_counterexample :
    json_restructure [c1row] = Except.error jsUndefinedTrimError ∧
    (json_restructure [c1row]).isOk = false := by decide

/-- Claim C1 (amended): for every row whose Response Type is not
"Text Entry" and whose Response Options is the empty string, the
Restructurer raises the undefined-trim TypeError instead of producing a
question; it never reaches the zero-option question shape. -/
theorem claim_C1 (r : Row) (h1 : r.responseType ≠ "Text Entry")
    (h2 : r.responseOptions = "") :
    row_question r = Except.error jsUndefinedTrimError ∧
    json_restructure [r] = Except.error jsUndefinedTrimError := by
  have hrow : row_question r = Except.error jsUndefinedTrimError := by
    unfold row_question
    rw [if_pos h1, h2]
    rfl
  refine ⟨hrow, ?_⟩
  show json_restructure_go [r] [] = Except.error jsUndefinedTrimError
  simp only [json_restructure_go]
  rw [hrow]

/-- Claim C1 witness: the amended claim instantiated at `c1row`. -/
theorem claim_C1_witness :
    c1row.responseType ≠ "Text Entry" ∧ c1row.responseOptions = "" ∧
    (row_question c1row = Except.error jsUndefinedTrimError ∧
      json_restructure [c1row] = Except.error jsUndefinedTrimError) :=
  ⟨by decide, rfl, claim_C1 c1row (by decide) rfl⟩

/-- Claim C2 (code divergence): on the Scenario D segment "1-Yes" the code
raises only the bare JavaScript TypeError of dereferencing the missing
second split part; the error text does not contain the offending segment,
so the raised error is not the descriptive one the claim requires. -/
theorem claim_C2 :
    json_restructure [c2row] = Except.error jsUndefinedTrimError ∧
    ¬ "1-Yes".data <:+: jsUndefinedTrimError.data := by decide

/-- Claim C3 counterexample: the code splits a segment on every "=" and
takes only the second part as `text`, so "1=a=b" yields text "a", not the
claimed "a=b". -/
theorem claim_C3_counterexample :
    parseSegment "1=a=b" = Except.ok ⟨"a", "1"⟩ ∧
    parseSegment "1=a=b" ≠ Except.ok ⟨"a=b", "1"⟩ := by decide

/-- Claim C3 (amended): for a segment whose split on "=" yields at least
two parts, the parsed Option's `value` is the trimmed part before the
first "=" and its `text` is the trimmed part between the first and second
"=" (the second split part), not everything after the first "=". -/
theorem claim_C3 (seg v t : String) (rest : List String)
    (h : jsSplit '=' seg = v :: t :: rest) :
    parseSegment seg = Except.ok ⟨jsTrim t, jsTrim v⟩ := by
  unfold parseSegment
  rw [h]

/-- Claim C3 witness: the amended claim instantiated at "1=a=b". -/
theorem claim_C3_witness :
    jsSplit '=' "1=a=b" = "1" :: "a" :: ["b"] ∧
    parseSegment "1=a=b" = Except.ok ⟨jsTrim "a", jsTrim "1"⟩ :=
  ⟨by decide, claim_C3 "1=a=b" "1" "a" ["b"] (by decide)⟩

/-- Claim C4: whenever the Restructurer returns, the output questionnaire
titles are pairwise distinct, they are exactly the distinct computed row
titles in order of first appearance, and the number of questionnaires
equals the number of distinct computed titles. -/
theorem claim_C4 (rows : List Row) (out : List Questionnaire)
    (h : json_restructure rows = Except.ok out) :
    (out.map Questionnaire.title).Nodup ∧
    out.map Questionnaire.title = firstSeenTitles (rows.map questionnaire_title) ∧
    out.length = (rows.map questionnaire_title).toFinset.card := by
  have hmap := json_restructure_go_map_title rows [] out h
  rw [List.map_nil] at hmap
  have hnodup : (out.map Questionnaire.title).Nodup := by
    rw [hmap]
    exact foldl_addTitle_nodup _ _ List.nodup_nil
  refine ⟨hnodup, hmap, ?_⟩
  have hfin : (out.map Questionnaire.title).toFinset =
      (rows.map questionnaire_title).toFinset := by
    rw [hmap, foldl_addTitle_toFinset]
    simp
  have hlen : out.length = (out.map Questionnaire.title).length := by simp
  rw [hlen, ← List.toFinset_card_of_nodup hnodup, hfin]

/-- Claim C4 witness: the dedup invariant at a three-row input with two
distinct computed titles. -/
theorem claim_C4_witness :
    (c4out.map Questionnaire.title).Nodup ∧
    c4out.map Questionnaire.title = firstSeenTitles (c4rows.map questionnaire_title) ∧
    c4out.length = (c4rows.map questionnaire_title).toFinset.card :=
  claim_C4 c4rows c4out (by decide)

/-- Claim C5: a "Text Entry" row always yields the no-`rows` question
shape, and the row's Response Options cell is never consulted: replacing
it changes nothing. -/
theorem claim_C5 (r : Row) (h : r.responseType = "Text Entry") :
    row_question r = Except.ok
      { title := question_title_of r
        type := question_types r.responseType
        rows := none
        variable_name := r.questionAbbreviation } ∧
    ∀ s : String, row_question { r with responseOptions := s } = row_question r := by
  have hcond : ¬ r.responseType ≠ "Text Entry" := fun hn => hn h
  constructor
  · unfold row_question
    rw [if_neg hcond]
    rfl
  · intro s
    exact row_question_congr _ r ⟨rfl, rfl, rfl, rfl, rfl, rfl, fun hn => absurd h hn⟩

/-- Claim C5 witness: instantiated at a concrete text-entry row. -/
theorem claim_C5_witness :
    c5row.responseType = "Text Entry" ∧
    row_question c5row = Except.ok
      { title := question_title_of c5row
        type := question_types c5row.responseType
        rows := none
        variable_name := c5row.questionAbbreviation } ∧
    row_question { c5row with responseOptions := "other" } = row_question c5row :=
  ⟨rfl, (claim_C5 c5row rfl).1, (claim_C5 c5row rfl).2 "other"⟩

/-- Claim C6: the computed questionnaire title is the Name when Name and
Abbreviation agree, and otherwise Abbreviation followed by the Name in
parentheses. -/
theorem claim_C6 (r : Row) :
    (r.questionnaireName = r.questionnaireAbbreviation →
      questionnaire_title r = r.questionnaireName) ∧
    (r.questionnaireName ≠ r.questionnaireAbbreviation →
      questionnaire_title r =
        r.questionnaireAbbreviation ++ " (" ++ r.questionnaireName ++ ")") := by
  constructor
  · intro h
    unfold questionnaire_title
    rw [if_pos h]
  · intro h
    unfold questionnaire_title
    rw [if_neg h]

/-- Claim C6 witness: Scenario B, Name "Patient Health Questionnaire" with
Abbreviation "PHQ9". -/
theorem claim_C6_witness :
    ("Patient Health Questionnaire" : String) ≠ "PHQ9" ∧
    questionnaire_title c6row = "PHQ9 (Patient Health Questionnaire)" :=
  ⟨by decide, (claim_C6 c6row).2 (by decide)⟩

/-- Claim C7: the option parser uses the newline split exactly when it
produced at least 2 elements and otherwise re-splits the original string
on commas; the comma-separated Scenario C input yields two options. -/
theorem claim_C7 (s : String) :
    ((jsSplit '\n' s).length < 2 → splitResponses s = jsSplit ',' s) ∧
    (¬ (jsSplit '\n' s).length < 2 → splitResponses s = jsSplit '\n' s) ∧
    parseSegments (splitResponses "1=Yes, 2=No") =
      Except.ok [⟨"Yes", "1"⟩, ⟨"No", "2"⟩] := by
  refine ⟨?_, ?_, by decide⟩
  · intro h
    show (if (jsSplit '\n' s).length < 2 then jsSplit ',' s else jsSplit '\n' s) = _
    rw [if_pos h]
  · intro h
    show (if (jsSplit '\n' s).length < 2 then jsSplit ',' s else jsSplit '\n' s) = _
    rw [if_neg h]

/-- Claim C7 witness: the Scenario C input has no newline, so the comma
fallback fires. -/
theorem claim_C7_witness :
    (jsSplit '\n' "1=Yes, 2=No").length < 2 ∧
    splitResponses "1=Yes, 2=No" = jsSplit ',' "1=Yes, 2=No" ∧
    parseSegments (splitResponses "1=Yes, 2=No") =
      Except.ok [⟨"Yes", "1"⟩, ⟨"No", "2"⟩] :=
  ⟨by decide, (claim_C7 "1=Yes, 2=No").1 (by decide), (claim_C7 "1=Yes, 2=No").2.2⟩

/-- Claim C8 counterexample: the `question_types` object literal inherits
from `Object.prototype`, so the key "toString" does not return an
absent/undefined value: the read yields the inherited function, refuting
the claim's universal lookup-miss conjunct. -/
theorem claim_C8_counterexample :
    question_types "toString" = JSTypeValue.inherited "toString" ∧
    question_types "toString" ≠ JSTypeValue.undef := by decide

/-- Claim C8 (amended): the table maps the four recognized labels to
their codes; any other string returns, without raising, an undefined
value unless it names a property of `Object.prototype`, in which case the
inherited value is returned instead; whatever the lookup yields
propagates into the built question's `type` field. -/
theorem claim_C8 :
    question_types "Single Choice" = JSTypeValue.str "single_sel" ∧
    question_types "Image" = JSTypeValue.str "image_sel" ∧
    question_types "Multiple Choice" = JSTypeValue.str "multi_sel" ∧
    question_types "Text Entry" = JSTypeValue.str "text" ∧
    (∀ s : String, s ≠ "Single Choice" → s ≠ "Image" → s ≠ "Multiple Choice" →
      s ≠ "Text Entry" → s ∉ object_prototype_keys →
      question_types s = JSTypeValue.undef) ∧
    (∀ s : String, s ≠ "Single Choice" → s ≠ "Image" → s ≠ "Multiple Choice" →
      s ≠ "Text Entry" → s ∈ object_prototype_keys →
      question_types s = JSTypeValue.inherited s) ∧
    (∀ (r : Row) (q : Question), row_question r = Except.ok q →
      q.type = question_types r.responseType) := by
  refine ⟨rfl, rfl, rfl, rfl, ?_, ?_, ?_⟩
  · intro s h1 h2 h3 h4 h5
    unfold question_types
    rw [if_neg h1, if_neg h2, if_neg h3, if_neg h4, if_neg h5]
  · intro s h1 h2 h3 h4 h5
    unfold question_types
    rw [if_neg h1, if_neg h2, if_neg h3, if_neg h4, if_pos h5]
  · intro r q h
    by_cases ht : r.responseType ≠ "Text Entry"
    · unfold row_question at h
      rw [if_pos ht] at h
      cases hp : parseSegments (splitResponses r.responseOptions) with
      | error e => rw [hp] at h; exact absurd h (fun hc => Except.noConfusion hc)
      | ok os =>
        rw [hp] at h
        injection h with h2
        rw [← h2, questions_responses_type]
    · unfold row_question at h
      rw [if_neg ht] at h
      injection h with h2
      rw [← h2, questions_responses_type]

/-- Claim C8 witness: "Slider" misses both the table and the prototype
chain and yields an undefined type, "toString" hits the prototype chain
and yields the inherited value, and the question built for the
"Slider" row carries the lookup's result in its type field. -/
theorem claim_C8_witness :
    ("Slider" : String) ≠ "Single Choice" ∧
    ("Slider" : String) ∉ object_prototype_keys ∧
    question_types "Slider" = JSTypeValue.undef ∧
    ("toString" : String) ∈ object_prototype_keys ∧
    question_types "toString" = JSTypeValue.inherited "toString" ∧
    row_question c8row = Except.ok c8question ∧
    c8question.type = question_types c8row.responseType :=
  ⟨by decide, by decide,
    claim_C8.2.2.2.2.1 "Slider" (by decide) (by decide) (by decide) (by decide)
      (by decide),
    by decide,
    claim_C8.2.2.2.2.2.1 "toString" (by decide) (by decide) (by decide)
      (by decide) (by decide),
    by decide,
    claim_C8.2.2.2.2.2.2 c8row c8question (by decide)⟩

/-- Claim C9: on a run where the Restructurer returns, every non-text row
got a question whose `rows` field is present and holds at least one
option, because a split never yields an empty list. -/
theorem claim_C9 (rows : List Row) (out : List Questionnaire)
    (h : json_restructure rows = Except.ok out) (r : Row) (hr : r ∈ rows)
    (ht : r.responseType ≠ "Text Entry") :
    ∃ (q : Question) (opts : List ResponseOption),
      row_question r = Except.ok q ∧ q.rows = some opts ∧ 0 < opts.length := by
  obtain ⟨q, hq⟩ := json_restructure_go_row_ok rows [] out h r hr
  have hqsave := hq
  unfold row_question at hq
  rw [if_pos ht] at hq
  cases hp : parseSegments (splitResponses r.responseOptions) with
  | error e => rw [hp] at hq; exact absurd hq (fun hc => Except.noConfusion hc)
  | ok os =>
    rw [hp] at hq
    injection hq with h2
    have hlen : (splitResponses r.responseOptions).length ≠ 0 := by
      intro h0
      exact splitResponses_ne_nil r.responseOptions (List.length_eq_zero.mp h0)
    have hos : os.length = (splitResponses r.responseOptions).length :=
      parseSegments_length _ _ hp
    refine ⟨q, os, hqsave, ?_, ?_⟩
    · rw [← h2]
      unfold questions_responses
      rw [if_pos hlen]
    · omega

/-- Claim C9 witness: Scenario A's single-choice row inside a successful
one-row run. -/
theorem claim_C9_witness :
    json_restructure [c9row] = Except.ok c9out ∧
    c9row.responseType ≠ "Text Entry" ∧
    ∃ (q : Question) (opts : List ResponseOption),
      row_question c9row = Except.ok q ∧ q.rows = some opts ∧ 0 < opts.length :=
  ⟨by decide, by decide,
    claim_C9 [c9row] c9out (by decide) c9row (by decide) (by decide)⟩

/-- Claim C10: the output never depends on the Response Options of
text-entry rows; two inputs agreeing everywhere except in that field of
text-entry rows restructure identically. -/
theorem claim_C10 (xs ys : List Row)
    (h : List.Forall₂ agreeExceptTextOptions xs ys) :
    json_restructure xs = json_restructure ys :=
  json_restructure_go_congr xs ys h []

/-- Claim C10 witness: blanking the response options of a text-entry row
leaves the output unchanged. -/
theorem claim_C10_witness :
    List.Forall₂ agreeExceptTextOptions c10xs c10ys ∧
    json_restructure c10xs = json_restructure c10ys := by
  have hf : List.Forall₂ agreeExceptTextOptions c10xs c10ys :=
    List.Forall₂.cons ⟨rfl, rfl, rfl, rfl, rfl, rfl, fun hn => absurd rfl hn⟩
      List.Forall₂.nil
  exact ⟨hf, claim_C10 c10xs c10ys hf⟩

end App
